import Mathlib

/-!
Verification development for the penalty-pose repository.

Shallow embedding of the three Python programs:
* `xbox.py` — keyboard-to-virtual-gamepad mapper (`Xbox` namespace),
* `penalty_kick.py` — normalized-coordinate penalty-kick controller (`PK` namespace),
* `pose_penalty_kick.py` — pixel-coordinate penalty-kick detector (`Pose` namespace).

Python floats are modelled as exact rationals (`ℚ`); the claims under study are
about comparisons and bookkeeping, not about rounding.  Euclidean-distance
comparisons `sqrt d ≤ r` are embedded as `d ≤ r ^ 2` on the squared distance,
which is equivalent since both sides are nonnegative.  Python `int()` truncation
toward zero is modelled by `truncQ`.
-/

namespace Xbox

/-- The four analog axis accumulators of `KeyboardToXboxMapper`
(`left_stick_x`, `left_stick_y`, `right_stick_x`, `right_stick_y`). -/
structure Sticks where
  left_stick_x : ℚ
  left_stick_y : ℚ
  right_stick_x : ℚ
  right_stick_y : ℚ
deriving DecidableEq, Repr

/-- `self.analog_mappings` from `xbox.py`: key string to
(stick name, x offset, y offset). -/
def analog_mappings : String → Option (String × ℚ × ℚ)
  | "w" => some ("left_stick", 0, 1)
  | "s" => some ("left_stick", 0, -1)
  | "a" => some ("left_stick", -1, 0)
  | "d" => some ("left_stick", 1, 0)
  | "up" => some ("right_stick", 0, 1)
  | "down" => some ("right_stick", 0, -1)
  | "left" => some ("right_stick", -1, 0)
  | "right" => some ("right_stick", 1, 0)
  | _ => none

/-- Contribution of one held key to the `left_stick_x` accumulator
(the `self.left_stick_x += x_offset` line in the `left_stick` branch). -/
def leftXOffset (k : String) : ℚ :=
  match analog_mappings k with
  | some (stick, x, _) => if stick = "left_stick" then x else 0
  | none => 0

/-- Contribution of one held key to the `right_stick_x` accumulator
(the `self.right_stick_x += x_offset` line in the `right_stick` branch). -/
def rightXOffset (k : String) : ℚ :=
  match analog_mappings k with
  | some (stick, x, _) => if stick = "right_stick" then x else 0
  | none => 0

/-- Contribution of one held key to the `right_stick_y` accumulator.
In the source, BOTH the `left_stick` branch and the `right_stick` branch
execute `self.right_stick_y += y_offset`; `left_stick_y` is never
incremented anywhere. -/
def rightYOffset (k : String) : ℚ :=
  match analog_mappings k with
  | some (stick, _, y) =>
      if stick = "left_stick" then y
      else if stick = "right_stick" then y
      else 0
  | none => 0

/-- `max(-1.0, min(1.0, v))` from `update_analog_sticks`. -/
def clampAxis (v : ℚ) : ℚ := max (-1) (min 1 v)

/-- `update_analog_sticks`: reset the four accumulators to 0, add the
contribution of every currently pressed key (Python iterates a `set`;
addition is commutative so a `Finset` sum is faithful), then clamp each
axis to `[-1, 1]`.  `left_stick_y` receives no contribution in the source,
only the reset and the clamp. -/
def update_analog_sticks (pressed_keys : Finset String) : Sticks :=
  { left_stick_x := clampAxis (Finset.sum pressed_keys leftXOffset)
    left_stick_y := clampAxis 0
    right_stick_x := clampAxis (Finset.sum pressed_keys rightXOffset)
    right_stick_y := clampAxis (Finset.sum pressed_keys rightYOffset) }

/-- The `self.pressed_keys.add(key_str)` step of `on_key_press`. -/
def pressedKeysAfterPress (key_str : String) (pressed_keys : Finset String) :
    Finset String :=
  insert key_str pressed_keys

/-- Whether `key_str in self.analog_mappings`. -/
def isAnalogKey (key_str : String) : Bool :=
  (analog_mappings key_str).isSome

end Xbox

/-- A MediaPipe pose landmark: normalized position plus a visibility
(confidence) score. -/
structure Landmark where
  x : ℚ
  y : ℚ
  visibility : ℚ
deriving DecidableEq, Repr

/-- Python `int()` applied to a rational: truncation toward zero. -/
def truncQ (q : ℚ) : ℤ := if 0 ≤ q then ⌊q⌋ else ⌈q⌉

namespace PK

/-- `PoseLandmark.LEFT_KNEE` index used by `landmarks[...]`. -/
def LEFT_KNEE : Nat := 25

/-- `PoseLandmark.RIGHT_KNEE` index. -/
def RIGHT_KNEE : Nat := 26

/-- `PoseLandmark.LEFT_ANKLE` index. -/
def LEFT_ANKLE : Nat := 27

/-- `PoseLandmark.RIGHT_ANKLE` index. -/
def RIGHT_ANKLE : Nat := 28

/-- `self.circle_center = (0.5, 0.5)` (normalized coordinates). -/
def circle_center : ℚ × ℚ := (1 / 2, 1 / 2)

/-- `self.circle_radius = 0.15` (normalized radius). -/
def circle_radius : ℚ := 15 / 100

/-- `is_point_in_circle`: the source compares
`sqrt(dx*dx + dy*dy) <= circle_radius`; with both sides nonnegative this is
equivalent to comparing the squares, which is what we embed. -/
def is_point_in_circle (point_x point_y : ℚ) : Bool :=
  let dx := point_x - circle_center.1
  let dy := point_y - circle_center.2
  decide (dx * dx + dy * dy ≤ circle_radius * circle_radius)

/-- `check_leg_detection`: test left knee, right knee, left ankle, right
ankle in that order against the circle, returning at the first hit.
MediaPipe always emits the full 33-landmark array, so the landmark set is a
total map from index to landmark.  Note: the source reads only `.x` and
`.y` of each landmark; it performs no visibility/confidence check. -/
def check_leg_detection (landmarks : Nat → Landmark) : Bool × Option String :=
  if is_point_in_circle (landmarks LEFT_KNEE).x (landmarks LEFT_KNEE).y then
    (true, some "Left Knee")
  else if is_point_in_circle (landmarks RIGHT_KNEE).x (landmarks RIGHT_KNEE).y then
    (true, some "Right Knee")
  else if is_point_in_circle (landmarks LEFT_ANKLE).x (landmarks LEFT_ANKLE).y then
    (true, some "Left Ankle")
  else if is_point_in_circle (landmarks RIGHT_ANKLE).x (landmarks RIGHT_ANKLE).y then
    (true, some "Right Ankle")
  else
    (false, none)

/-- The fixed priority order of tracked joints in `check_leg_detection`,
with the label each one is reported under. -/
def legOrder : List (Nat × String) :=
  [(LEFT_KNEE, "Left Knee"), (RIGHT_KNEE, "Right Knee"),
   (LEFT_ANKLE, "Left Ankle"), (RIGHT_ANKLE, "Right Ankle")]

/-- Modelled from the spec: "first match by a fixed priority order over a
fixed list of joints — ties broken by list order".  Reference function to
compare `check_leg_detection` against. -/
def firstMatchSpec (landmarks : Nat → Landmark) : Bool × Option String :=
  match legOrder.find?
      (fun p => is_point_in_circle (landmarks p.1).x (landmarks p.1).y) with
  | some p => (true, some p.2)
  | none => (false, none)

/-- A landmark set whose left knee sits exactly on the circle center with
visibility 0; every other landmark is far outside the circle. -/
def lowConfidenceLandmarks : Nat → Landmark := fun i =>
  if i = LEFT_KNEE then { x := 1 / 2, y := 1 / 2, visibility := 0 }
  else { x := 0, y := 0, visibility := 0 }

/-- A landmark set in which BOTH knees sit on the circle center while the
ankles are far outside: a tie between two tracked joints. -/
def bothKneesLandmarks : Nat → Landmark := fun i =>
  if i = LEFT_KNEE ∨ i = RIGHT_KNEE then { x := 1 / 2, y := 1 / 2, visibility := 1 }
  else { x := 0, y := 0, visibility := 1 }

end PK

namespace Pose

/-- `self.circle_radius = 80` (pixels). -/
def circle_radius : ℤ := 80

/-- `self.touch_threshold = self.circle_radius + 20`. -/
def touch_threshold : ℤ := circle_radius + 20

/-- Squared Euclidean distance between two pixel points.  The source's
`calculate_distance` returns `sqrt((x1-x2)**2 + (y1-y2)**2)` and is only
used in the comparison `distance <= self.touch_threshold`, which is
equivalent to the squared comparison embedded here. -/
def calculate_distance_sq (point1 point2 : ℤ × ℤ) : ℤ :=
  (point1.1 - point2.1) ^ 2 + (point1.2 - point2.2) ^ 2

/-- The `leg_landmarks` list of `is_foot_touching_circle`, in source
order, with each landmark's `.value` index and `.name`. -/
def leg_landmarks : List (Nat × String) :=
  [(23, "LEFT_HIP"), (24, "RIGHT_HIP"),
   (25, "LEFT_KNEE"), (26, "RIGHT_KNEE"),
   (27, "LEFT_ANKLE"), (28, "RIGHT_ANKLE"),
   (29, "LEFT_HEEL"), (30, "RIGHT_HEEL"),
   (31, "LEFT_FOOT_INDEX"), (32, "RIGHT_FOOT_INDEX")]

/-- The `for landmark_id in leg_landmarks` loop of
`is_foot_touching_circle`.  Indexing `landmarks.landmark[...]` is embedded
as `List.get?`; the `none` result models an out-of-bounds access (which the
`landmark_id.value < len(...)` guard is there to prevent). -/
def touchLoop (landmarks : List Landmark) (image_width image_height : ℚ)
    (circle_center : ℤ × ℤ) :
    List (Nat × String) → Option (Bool × Option (ℤ × ℤ) × Option String)
  | [] => some (false, none, none)
  | (id, name) :: rest =>
    if id < landmarks.length then
      match landmarks.get? id with
      | none => none
      | some landmark =>
        let x := truncQ (landmark.x * image_width)
        let y := truncQ (landmark.y * image_height)
        if 1 / 2 < landmark.visibility then
          if calculate_distance_sq (x, y) circle_center ≤ touch_threshold ^ 2 then
            some (true, some (x, y), some name)
          else touchLoop landmarks image_width image_height circle_center rest
        else touchLoop landmarks image_width image_height circle_center rest
    else touchLoop landmarks image_width image_height circle_center rest

/-- `is_foot_touching_circle`: run the loop over the fixed
`leg_landmarks` list. -/
def is_foot_touching_circle (landmarks : List Landmark)
    (image_width image_height : ℚ) (circle_center : ℤ × ℤ) :
    Option (Bool × Option (ℤ × ℤ) × Option String) :=
  touchLoop landmarks image_width image_height circle_center leg_landmarks

/-- Whether one entry of `leg_landmarks` satisfies the full trigger
condition of `is_foot_touching_circle` for a given frame: the index is in
bounds, visibility exceeds 0.5, and the pixel distance to the circle
center is within the touch threshold. -/
def qualifies (landmarks : List Landmark) (image_width image_height : ℚ)
    (circle_center : ℤ × ℤ) (p : Nat × String) : Bool :=
  match landmarks.get? p.1 with
  | none => false
  | some landmark =>
    decide ((1 : ℚ) / 2 < landmark.visibility) &&
    decide (calculate_distance_sq
        (truncQ (landmark.x * image_width), truncQ (landmark.y * image_height))
        circle_center ≤ touch_threshold ^ 2)

/-- Pixel coordinates of the landmark at index `id`, as computed inside the
loop. -/
def pixelOf (landmarks : List Landmark) (image_width image_height : ℚ)
    (id : Nat) : ℤ × ℤ :=
  let landmark := landmarks.getD id { x := 0, y := 0, visibility := 0 }
  (truncQ (landmark.x * image_width), truncQ (landmark.y * image_height))

/-- Modelled from the spec: "first match by a fixed priority order over a
fixed list of joints — ties broken by list order, not by distance".
Reference function to compare `is_foot_touching_circle` against. -/
def firstMatchSpec (landmarks : List Landmark) (image_width image_height : ℚ)
    (circle_center : ℤ × ℤ) : Bool × Option (ℤ × ℤ) × Option String :=
  match leg_landmarks.find?
      (qualifies landmarks image_width image_height circle_center) with
  | some p => (true, some (pixelOf landmarks image_width image_height p.1),
               some p.2)
  | none => (false, none, none)

/-- A frame of 24 landmarks, every one sitting on the circle center with
full visibility; the first tracked joint (index 23, the left hip) is then
the first to qualify. -/
def demoLandmarks : List Landmark :=
  List.replicate 24 { x := 0, y := 0, visibility := 1 }

end Pose

/-- Commands the programs issue to their external sinks (virtual gamepad,
camera handle, display windows, thread join), in issue order. -/
inductive SinkCmd
  | leftJoystick (x y : ℚ)
  | pressB
  | releaseB
  | gamepadUpdate
  | capRelease
  | destroyWindows
  | joinActionThread
deriving DecidableEq, Repr

/-- Whether a command is addressed to the virtual controller. -/
def isControllerCmd : SinkCmd → Bool
  | SinkCmd.leftJoystick _ _ => true
  | SinkCmd.pressB => true
  | SinkCmd.releaseB => true
  | SinkCmd.gamepadUpdate => true
  | _ => false

namespace Exec

/-- Primitive statements of the timed effect bodies. -/
inductive Act
  | cmd (c : SinkCmd)
  | sleep (d : ℚ)
  | setActive (b : Bool)
  | setLastNow
deriving DecidableEq, Repr

/-- Interpreter state: the shared action flag (`action_active` /
`is_kicking`), the last-completion timestamp (`last_action_time` /
`last_kick_time`), the wall clock, and the log of successfully issued sink
commands. -/
structure St where
  active : Bool
  last : ℚ
  time : ℚ
  log : List SinkCmd
deriving DecidableEq, Repr

/-- Run a list of statements.  `fault i = true` means the i-th sink call of
this execution raises; a raising call issues nothing and aborts the rest of
the list, like a Python exception.  Sink calls take no time; `sleep d`
advances the clock by `d`.  Returns the final state, the next call index,
and whether an exception was raised. -/
def runActs (fault : Nat → Bool) : Nat → St → List Act → St × Nat × Bool
  | i, σ, [] => (σ, i, false)
  | i, σ, Act.cmd c :: rest =>
      if fault i then (σ, i + 1, true)
      else runActs fault (i + 1) { σ with log := σ.log ++ [c] } rest
  | i, σ, Act.sleep d :: rest =>
      runActs fault i { σ with time := σ.time + d } rest
  | i, σ, Act.setActive b :: rest =>
      runActs fault i { σ with active := b } rest
  | i, σ, Act.setLastNow :: rest =>
      runActs fault i { σ with last := σ.time } rest

/-- `try: body except Exception: log finally: fin`: any exception in the
body is swallowed (or, for a non-`Exception`, re-raised only after the
finally-block), and the finally-block always runs. -/
def runTryFinally (fault : Nat → Bool) (σ : St) (body fin : List Act) : St :=
  let r := runActs fault 0 σ body
  (runActs fault r.2.1 r.1 fin).1

/-- The fault pattern of a sink that never raises. -/
def noFault : Nat → Bool := fun _ => false

end Exec

namespace PK

/-- `self.action_cooldown = 3.0` (seconds). -/
def action_cooldown : ℚ := 3

/-- `self.action_duration = 2.0` (seconds). -/
def action_duration : ℚ := 2

/-- The press/hold commands of `execute_penalty_kick`: left stick up, B
button down, flush. -/
def pressCmds : List SinkCmd :=
  [SinkCmd.leftJoystick 0 1, SinkCmd.pressB, SinkCmd.gamepadUpdate]

/-- The release commands of `execute_penalty_kick`: stick reset, B button
up, flush. -/
def releaseCmds : List SinkCmd :=
  [SinkCmd.leftJoystick 0 0, SinkCmd.releaseB, SinkCmd.gamepadUpdate]

/-- The `try:` block of `execute_penalty_kick`: press and flush, hold for
`action_duration`, release and flush. -/
def executeBody : List Exec.Act :=
  pressCmds.map Exec.Act.cmd ++ [Exec.Act.sleep action_duration] ++
    releaseCmds.map Exec.Act.cmd

/-- The `finally:` block of `execute_penalty_kick`:
`self.action_active = False; self.last_action_time = time.time()`. -/
def executeFinally : List Exec.Act :=
  [Exec.Act.setActive false, Exec.Act.setLastNow]

/-- `execute_penalty_kick` of `penalty_kick.py`, for an arbitrary pattern
of sink failures. -/
def execute_penalty_kick (fault : Nat → Bool) (σ : Exec.St) : Exec.St :=
  Exec.runTryFinally fault σ executeBody executeFinally

/-- Phase of one `execute_penalty_kick` background thread, at the
granularity of its externally visible effects. -/
inductive ThreadPhase
  | started
  | holding
  | done
deriving DecidableEq, Repr

/-- A thread that has not yet finished its hold. -/
def ThreadPhase.isLive : ThreadPhase → Bool
  | .done => false
  | _ => true

/-- Whole-program state of `penalty_kick.py`: the two shared fields
`action_active` and `last_action_time`, the spawned execution timelines,
and the log of issued gamepad commands. -/
structure Sys where
  action_active : Bool
  last_action_time : ℚ
  threads : List ThreadPhase
  log : List SinkCmd
deriving DecidableEq, Repr

/-- Number of live threads in a timeline list. -/
def liveThreads : List ThreadPhase → Nat
  | [] => 0
  | p :: rest => (if p.isLive then 1 else 0) + liveThreads rest

/-- Number of in-flight execution timelines. -/
def liveCount (s : Sys) : Nat := liveThreads s.threads

/-- `trigger_penalty_kick` at wall-clock time `t`: return unchanged if an
action is already active, return unchanged if the cooldown has not elapsed,
otherwise set `action_active` (BEFORE the thread starts) and spawn a new
execution timeline. -/
def trigger_penalty_kick (s : Sys) (t : ℚ) : Sys :=
  if s.action_active = true then s
  else if t - s.last_action_time < action_cooldown then s
  else { s with action_active := true,
                threads := s.threads ++ [ThreadPhase.started] }

/-- One interleaving step of `penalty_kick.py`: a trigger pulse from the
capture loop at time `t`, a spawned thread issuing its press commands, or a
spawned thread ending its hold at time `t` (release commands followed by
the finally-block, which clears the flag and records `t`). -/
inductive Step : Sys → Sys → Prop
  | trigger (s : Sys) (t : ℚ) : Step s (trigger_penalty_kick s t)
  | press (s : Sys) (l₁ l₂ : List ThreadPhase)
      (h : s.threads = l₁ ++ ThreadPhase.started :: l₂) :
      Step s { s with threads := l₁ ++ ThreadPhase.holding :: l₂,
                      log := s.log ++ pressCmds }
  | finish (s : Sys) (l₁ l₂ : List ThreadPhase) (t : ℚ)
      (h : s.threads = l₁ ++ ThreadPhase.holding :: l₂) :
      Step s { s with threads := l₁ ++ ThreadPhase.done :: l₂,
                      log := s.log ++ releaseCmds,
                      action_active := false, last_action_time := t }

/-- Initial state of `PenaltyKickController.__init__`:
`action_active = False`, `last_action_time = 0`, no thread spawned. -/
def initSys : Sys :=
  { action_active := false, last_action_time := 0, threads := [], log := [] }

/-- States reachable from the initial state by interleaving steps. -/
inductive Reach : Sys → Prop
  | base : Reach initSys
  | step {s s' : Sys} : Reach s → Step s s' → Reach s'

/-- The single-flight invariant of `penalty_kick.py`: a clear
`action_active` flag means no timeline is in flight, and at most one
timeline is in flight. -/
def FlagInv (s : Sys) : Prop :=
  (s.action_active = false → liveCount s = 0) ∧ liveCount s ≤ 1

end PK

namespace Pose

/-- `self.cooldown_duration = 5` (seconds). -/
def cooldown_duration : ℚ := 5

/-- `self.kick_duration = 2` (seconds). -/
def kick_duration : ℚ := 2

/-- The press/hold commands of `execute_penalty_kick`: left stick up, B
button down, flush. -/
def pressCmds : List SinkCmd :=
  [SinkCmd.leftJoystick 0 1, SinkCmd.pressB, SinkCmd.gamepadUpdate]

/-- The release commands of `execute_penalty_kick`: stick reset, B button
up, flush. -/
def releaseCmds : List SinkCmd :=
  [SinkCmd.leftJoystick 0 0, SinkCmd.releaseB, SinkCmd.gamepadUpdate]

/-- The `try:` block of `execute_penalty_kick`: press and flush, hold for
`kick_duration`, release and flush. -/
def executeBody : List Exec.Act :=
  pressCmds.map Exec.Act.cmd ++ [Exec.Act.sleep kick_duration] ++
    releaseCmds.map Exec.Act.cmd

/-- The `finally:` block of `execute_penalty_kick`:
`self.is_kicking = False; self.last_kick_time = time.time()`. -/
def executeFinally : List Exec.Act :=
  [Exec.Act.setActive false, Exec.Act.setLastNow]

/-- `execute_penalty_kick` of `pose_penalty_kick.py`: the early-return
guard `if self.is_kicking: return` and the flag set
`self.is_kicking = True` precede the `try:` body (`Exec.St.active` plays
`is_kicking`, `Exec.St.last` plays `last_kick_time`). -/
def execute_penalty_kick (fault : Nat → Bool) (σ : Exec.St) : Exec.St :=
  if σ.active = true then σ
  else Exec.runTryFinally fault { σ with active := true }
    executeBody executeFinally

/-- Phase of one `execute_penalty_kick` thread of `pose_penalty_kick.py`.
Unlike `penalty_kick.py`, the flag is set inside the thread, so a spawned
thread starts in an `entry` phase before `is_kicking` is touched. -/
inductive ThreadPhase
  | entry
  | running
  | holding
  | done
deriving DecidableEq, Repr

/-- Whole-program state of `pose_penalty_kick.py`. -/
structure Sys where
  is_kicking : Bool
  last_kick_time : ℚ
  threads : List ThreadPhase
  log : List SinkCmd
deriving DecidableEq, Repr

/-- The spawn site in `run`: on a frame whose trigger fired at time `t`,
spawn a new `execute_penalty_kick` thread only if the cooldown has elapsed
and `is_kicking` is clear.  The spawned thread has not yet executed its
first statement. -/
def runTrigger (s : Sys) (t : ℚ) : Sys :=
  if cooldown_duration ≤ t - s.last_kick_time ∧ s.is_kicking = false then
    { s with threads := s.threads ++ [ThreadPhase.entry] }
  else s

/-- The `if self.is_kicking: return` / `self.is_kicking = True` entry of a
spawned thread: when a kick is already active the thread dies without
issuing any command or touching any state. -/
def entryStep (s : Sys) (l₁ l₂ : List ThreadPhase) : Sys :=
  if s.is_kicking = true then { s with threads := l₁ ++ ThreadPhase.done :: l₂ }
  else { s with is_kicking := true,
                threads := l₁ ++ ThreadPhase.running :: l₂ }

/-- The `finally:` block of `run` (`pose_penalty_kick.py`):
`cap.release(); cv2.destroyAllWindows()`.  This is the only cleanup the
program performs on loop exit, normal or exceptional. -/
def runFinallyCmds : List SinkCmd := [SinkCmd.capRelease, SinkCmd.destroyWindows]

end Pose

namespace PK

/-- `cleanup` of `penalty_kick.py`: join any live action thread (bounded
3-second timeout), reset the gamepad inside `try/except: pass`, release the
camera when it is open, destroy the windows.  Both exit paths of
`start_penalty_kick_gaming` — the normal end of `start` and the
`finally:` of the wrapper — run this function. -/
def cleanup (thread_alive cap_opened : Bool) : List SinkCmd :=
  (if thread_alive then [SinkCmd.joinActionThread] else []) ++
  [SinkCmd.leftJoystick 0 0, SinkCmd.releaseB, SinkCmd.gamepadUpdate] ++
  (if cap_opened then [SinkCmd.capRelease] else []) ++
  [SinkCmd.destroyWindows]

end PK

/-- The guarded landmark loop of `is_foot_touching_circle` never hits the
out-of-bounds case and computes exactly the first entry of the candidate
list satisfying the trigger condition. -/
theorem Pose.touchLoop_eq_find? (landmarks : List Landmark)
    (image_width image_height : ℚ) (circle_center : ℤ × ℤ)
    (ids : List (Nat × String)) :
    Pose.touchLoop landmarks image_width image_height circle_center ids =
      some (match ids.find?
          (Pose.qualifies landmarks image_width image_height circle_center) with
        | some p =>
            (true, some (Pose.pixelOf landmarks image_width image_height p.1),
             some p.2)
        | none => (false, none, none)) := by
  induction ids with
  | nil => rfl
  | cons p rest ih =>
    obtain ⟨id, name⟩ := p
    by_cases hlen : id < landmarks.length
    · have hget : landmarks.get? id = some landmarks[id] := by
        rw [List.get?_eq_getElem?, List.getElem?_eq_getElem hlen]
      have hq : Pose.qualifies landmarks image_width image_height
          circle_center (id, name) =
          (decide ((1 : ℚ) / 2 < landmarks[id].visibility) &&
           decide (Pose.calculate_distance_sq
              (truncQ (landmarks[id].x * image_width),
               truncQ (landmarks[id].y * image_height)) circle_center ≤
              Pose.touch_threshold ^ 2)) := by
        simp only [Pose.qualifies]
        rw [hget]
      have hpix : Pose.pixelOf landmarks image_width image_height id =
          (truncQ (landmarks[id].x * image_width),
           truncQ (landmarks[id].y * image_height)) := by
        simp only [Pose.pixelOf]
        rw [List.getD_eq_getElem?_getD, List.getElem?_eq_getElem hlen,
          Option.getD_some]
      by_cases hvis : (1 : ℚ) / 2 < landmarks[id].visibility
      · by_cases hdist : Pose.calculate_distance_sq
            (truncQ (landmarks[id].x * image_width),
             truncQ (landmarks[id].y * image_height)) circle_center ≤
            Pose.touch_threshold ^ 2
        · have hqt : Pose.qualifies landmarks image_width image_height
              circle_center (id, name) = true := by
            rw [hq, decide_eq_true hvis, decide_eq_true hdist, Bool.and_self]
          rw [List.find?_cons_of_pos _ hqt]
          simp only [Pose.touchLoop]
          rw [if_pos hlen, hget]
          simp only [hpix]
          rw [if_pos hvis, if_pos hdist]
        · have hqf : Pose.qualifies landmarks image_width image_height
              circle_center (id, name) = false := by
            rw [hq, decide_eq_false hdist, Bool.and_false]
          rw [List.find?_cons_of_neg _ (by simp [hqf]), ← ih]
          simp only [Pose.touchLoop]
          rw [if_pos hlen, hget]
          simp only []
          rw [if_pos hvis, if_neg hdist]
      · have hqf : Pose.qualifies landmarks image_width image_height
            circle_center (id, name) = false := by
          rw [hq, decide_eq_false hvis, Bool.false_and]
        rw [List.find?_cons_of_neg _ (by simp [hqf]), ← ih]
        simp only [Pose.touchLoop]
        rw [if_pos hlen, hget]
        simp only []
        rw [if_neg hvis]
    · have hget : landmarks.get? id = none := by
        rw [List.get?_eq_getElem?]
        exact List.getElem?_eq_none (le_of_not_lt hlen)
      have hq : Pose.qualifies landmarks image_width image_height
          circle_center (id, name) = false := by
        simp only [Pose.qualifies]
        rw [hget]
      rw [List.find?_cons_of_neg _ (by rw [hq]; simp), ← ih]
      simp only [Pose.touchLoop]
      rw [if_neg hlen]

/-- C10: every candidate index is compared against the landmark-list length
before indexing, so `is_foot_touching_circle` performs no out-of-bounds
access and returns a result for every landmark list, of any length. -/
theorem C10_no_out_of_bounds_access (landmarks : List Landmark)
    (image_width image_height : ℚ) (circle_center : ℤ × ℤ) :
    (Pose.is_foot_touching_circle landmarks image_width image_height
      circle_center).isSome = true := by
  rw [Pose.is_foot_touching_circle, Pose.touchLoop_eq_find?]
  rfl

/-- C3: holding exactly the movement-up key `w` is claimed to put the
configured vertical unit on the LEFT stick only (left `(0, 1)`, right
`(0, 0)`).  Evaluating the embedded `update_analog_sticks` at
`pressed_keys = {"w"}` shows the code instead leaves the left stick at
`(0, 0)` and sets the RIGHT stick to `(0, 1)`: the `left_stick` branch of
the aggregation loop adds its `y_offset` to `right_stick_y`, contradicting
the mapping table's own comment `W -> Left stick up`. -/
theorem C3_w_key_drives_right_stick :
    Xbox.update_analog_sticks {"w"} =
      { left_stick_x := 0, left_stick_y := 0,
        right_stick_x := 0, right_stick_y := 1 } ∧
    Xbox.update_analog_sticks {"w"} ≠
      { left_stick_x := 0, left_stick_y := 1,
        right_stick_x := 0, right_stick_y := 0 } := by
  constructor
  · simp [Xbox.update_analog_sticks, Xbox.clampAxis, Xbox.leftXOffset,
      Xbox.rightXOffset, Xbox.rightYOffset, Xbox.analog_mappings]
  · intro h
    simp [Xbox.update_analog_sticks, Xbox.clampAxis, Xbox.leftXOffset,
      Xbox.rightXOffset, Xbox.rightYOffset, Xbox.analog_mappings,
      Xbox.Sticks.mk.injEq] at h

/-- C9: a press event for an analog-mapped key that is already held leaves
the held-key set (a Python `set`) unchanged, so the recomputed stick state
is identical: press-then-aggregate is idempotent. -/
theorem C9_repeat_press_idempotent (k : String) (s : Finset String)
    (_hk : Xbox.isAnalogKey k = true) (hmem : k ∈ s) :
    Xbox.pressedKeysAfterPress k s = s ∧
    Xbox.update_analog_sticks (Xbox.pressedKeysAfterPress k s) =
      Xbox.update_analog_sticks s := by
  have h : Xbox.pressedKeysAfterPress k s = s := Finset.insert_eq_self.mpr hmem
  exact ⟨h, by rw [h]⟩

/-- Witness for C9 at the concrete input `k = "w"`, `s = {"w"}`. -/
theorem C9_repeat_press_idempotent_witness :
    Xbox.pressedKeysAfterPress "w" {"w"} = {"w"} ∧
    Xbox.update_analog_sticks (Xbox.pressedKeysAfterPress "w" {"w"}) =
      Xbox.update_analog_sticks {"w"} :=
  C9_repeat_press_idempotent "w" {"w"} (by decide) (by decide)

/-- C1, counterexample: in `penalty_kick.py`, `check_leg_detection` applies
no confidence check at all.  The left knee of `lowConfidenceLandmarks` lies
at the circle center with visibility 0 (at or below the 0.5 threshold), yet
the trigger reports it as a match, refuting the claim for that variant. -/
theorem C1_counterexample_pk_ignores_confidence :
    (PK.lowConfidenceLandmarks PK.LEFT_KNEE).visibility ≤ 1 / 2 ∧
    PK.is_point_in_circle (PK.lowConfidenceLandmarks PK.LEFT_KNEE).x
      (PK.lowConfidenceLandmarks PK.LEFT_KNEE).y = true ∧
    PK.check_leg_detection PK.lowConfidenceLandmarks =
      (true, some "Left Knee") := by
  refine ⟨by norm_num [PK.lowConfidenceLandmarks, PK.LEFT_KNEE], ?_, ?_⟩
  · norm_num [PK.lowConfidenceLandmarks, PK.LEFT_KNEE, PK.is_point_in_circle,
      PK.circle_center, PK.circle_radius]
  · norm_num [PK.check_leg_detection, PK.lowConfidenceLandmarks, PK.LEFT_KNEE,
      PK.RIGHT_KNEE, PK.LEFT_ANKLE, PK.RIGHT_ANKLE, PK.is_point_in_circle,
      PK.circle_center, PK.circle_radius]

/-- C1, amended: only `pose_penalty_kick.py`'s trigger filters landmarks by
confidence — any landmark it reports has visibility strictly above 0.5 —
while `penalty_kick.py`'s `check_leg_detection` reads only landmark
positions, so its result is unchanged under arbitrary replacement of every
visibility score. -/
theorem C1_confidence_threshold_amended :
    (∀ (landmarks : List Landmark) (image_width image_height : ℚ)
        (circle_center : ℤ × ℤ) (pt : Option (ℤ × ℤ)) (name : String),
        Pose.is_foot_touching_circle landmarks image_width image_height
            circle_center = some (true, pt, some name) →
        ∃ i lm, (i, name) ∈ Pose.leg_landmarks ∧
          landmarks.get? i = some lm ∧ 1 / 2 < lm.visibility) ∧
    (∀ (landmarks : Nat → Landmark) (vis : Nat → ℚ),
        PK.check_leg_detection
            (fun i => { x := (landmarks i).x, y := (landmarks i).y,
                        visibility := vis i }) =
          PK.check_leg_detection landmarks) := by
  constructor
  · intro landmarks image_width image_height circle_center pt name hres
    rw [Pose.is_foot_touching_circle, Pose.touchLoop_eq_find?] at hres
    cases hf : Pose.leg_landmarks.find?
        (Pose.qualifies landmarks image_width image_height circle_center) with
    | none => rw [hf] at hres; simp at hres
    | some p =>
      rw [hf] at hres
      simp only [Option.some.injEq, Prod.mk.injEq, true_and] at hres
      obtain ⟨-, hname⟩ := hres
      have hqual : Pose.qualifies landmarks image_width image_height
          circle_center p = true := List.find?_some hf
      have hmem : p ∈ Pose.leg_landmarks := List.mem_of_find?_eq_some hf
      rw [Pose.qualifies] at hqual
      cases hget : landmarks.get? p.1 with
      | none => rw [hget] at hqual; simp at hqual
      | some lm =>
        rw [hget] at hqual
        simp only [Bool.and_eq_true, decide_eq_true_eq] at hqual
        refine ⟨p.1, lm, ?_, hget, hqual.1⟩
        have : p = (p.1, name) := by
          cases p with
          | mk a b => simpa using hname
        rw [← this]
        exact hmem
  · intro landmarks vis
    rfl

/-- Witness for C1's amended theorem: on `demoLandmarks` the pose-variant
trigger reports the left hip, and the theorem yields its above-threshold
visibility; the penalty-kick half is applied at `lowConfidenceLandmarks`
with all visibilities replaced by 1. -/
theorem C1_confidence_threshold_amended_witness :
    (∃ i lm, (i, "LEFT_HIP") ∈ Pose.leg_landmarks ∧
      Pose.demoLandmarks.get? i = some lm ∧ 1 / 2 < lm.visibility) ∧
    PK.check_leg_detection
        (fun i => { x := (PK.lowConfidenceLandmarks i).x,
                    y := (PK.lowConfidenceLandmarks i).y,
                    visibility := (fun _ => (1 : ℚ)) i }) =
      PK.check_leg_detection PK.lowConfidenceLandmarks := by
  constructor
  · refine C1_confidence_threshold_amended.1 Pose.demoLandmarks 100 100 (0, 0)
      (some (0, 0)) "LEFT_HIP" ?_
    rw [Pose.is_foot_touching_circle, Pose.leg_landmarks]
    simp only [Pose.touchLoop]
    norm_num [Pose.demoLandmarks, List.get?_eq_getElem?, List.getElem?_replicate,
      Pose.calculate_distance_sq, truncQ, Pose.touch_threshold,
      Pose.circle_radius]
  · exact C1_confidence_threshold_amended.2 PK.lowConfidenceLandmarks
      (fun _ => (1 : ℚ))

/-- C8: both geometric triggers implement first-match semantics over their
fixed joint lists: `check_leg_detection` equals the spec-side
`PK.firstMatchSpec` (left knee, right knee, left ankle, right ankle, in
that order), `is_foot_touching_circle` equals the spec-side
`Pose.firstMatchSpec` over `leg_landmarks`, and on a concrete frame where
both knees qualify simultaneously the left knee — listed first — is
reported, the tie broken by list position. -/
theorem C8_first_match_priority :
    (∀ landmarks : Nat → Landmark,
        PK.check_leg_detection landmarks = PK.firstMatchSpec landmarks) ∧
    (∀ (landmarks : List Landmark) (image_width image_height : ℚ)
        (circle_center : ℤ × ℤ),
        Pose.is_foot_touching_circle landmarks image_width image_height
            circle_center =
          some (Pose.firstMatchSpec landmarks image_width image_height
            circle_center)) ∧
    PK.check_leg_detection PK.bothKneesLandmarks = (true, some "Left Knee") := by
  refine ⟨?_, ?_, ?_⟩
  · intro landmarks
    rw [PK.check_leg_detection, PK.firstMatchSpec, PK.legOrder]
    by_cases h1 : PK.is_point_in_circle (landmarks PK.LEFT_KNEE).x
        (landmarks PK.LEFT_KNEE).y = true
    · simp [h1, List.find?_cons_of_pos]
    · by_cases h2 : PK.is_point_in_circle (landmarks PK.RIGHT_KNEE).x
          (landmarks PK.RIGHT_KNEE).y = true
      · simp [h1, h2]
      · by_cases h3 : PK.is_point_in_circle (landmarks PK.LEFT_ANKLE).x
            (landmarks PK.LEFT_ANKLE).y = true
        · simp [h1, h2, h3]
        · by_cases h4 : PK.is_point_in_circle (landmarks PK.RIGHT_ANKLE).x
              (landmarks PK.RIGHT_ANKLE).y = true
          · simp [h1, h2, h3, h4]
          · simp [h1, h2, h3, h4]
  · intro landmarks image_width image_height circle_center
    rw [Pose.is_foot_touching_circle, Pose.touchLoop_eq_find?,
      Pose.firstMatchSpec]
  · norm_num [PK.check_leg_detection, PK.bothKneesLandmarks, PK.LEFT_KNEE,
      PK.RIGHT_KNEE, PK.LEFT_ANKLE, PK.RIGHT_ANKLE, PK.is_point_in_circle,
      PK.circle_center, PK.circle_radius]

/-- Every reachable state of `penalty_kick.py` satisfies the single-flight
invariant: a clear `action_active` flag means no execution timeline is in
flight, and at most one timeline is ever in flight — the flag is set before
the thread is spawned and cleared only by the finishing thread. -/
theorem PK.liveThreads_append (l₁ l₂ : List PK.ThreadPhase) :
    PK.liveThreads (l₁ ++ l₂) = PK.liveThreads l₁ + PK.liveThreads l₂ := by
  induction l₁ with
  | nil => simp [PK.liveThreads]
  | cons p rest ih =>
    show (if p.isLive then 1 else 0) + PK.liveThreads (rest ++ l₂) =
      ((if p.isLive then 1 else 0) + PK.liveThreads rest) + PK.liveThreads l₂
    rw [ih]
    omega

theorem PK.step_flagInv {s s' : PK.Sys} (hstep : PK.Step s s')
    (ih : PK.FlagInv s) : PK.FlagInv s' := by
  cases hstep with
  | trigger t =>
    rw [PK.trigger_penalty_kick]
    by_cases ha : s.action_active = true
    · rw [if_pos ha]; exact ih
    · rw [if_neg ha]
      by_cases hc : t - s.last_action_time < PK.action_cooldown
      · rw [if_pos hc]; exact ih
      · rw [if_neg hc]
        have h0 : PK.liveCount s = 0 := ih.1 (by simpa using ha)
        rw [PK.liveCount] at h0
        constructor
        · intro hfa
          simp at hfa
        · show PK.liveThreads (s.threads ++ [PK.ThreadPhase.started]) ≤ 1
          rw [PK.liveThreads_append, h0]
          decide
  | press l₁ l₂ hthreads =>
    have hcount : PK.liveThreads (l₁ ++ PK.ThreadPhase.holding :: l₂) =
        PK.liveThreads s.threads := by
      rw [hthreads, PK.liveThreads_append, PK.liveThreads_append]
      rfl
    constructor
    · intro hfa
      have h0 := ih.1 hfa
      rw [PK.liveCount] at h0 ⊢
      show PK.liveThreads (l₁ ++ PK.ThreadPhase.holding :: l₂) = 0
      rw [hcount]
      exact h0
    · have h1 := ih.2
      rw [PK.liveCount] at h1 ⊢
      show PK.liveThreads (l₁ ++ PK.ThreadPhase.holding :: l₂) ≤ 1
      rw [hcount]
      exact h1
  | finish l₁ l₂ t hthreads =>
    have h1 := ih.2
    rw [PK.liveCount, hthreads, PK.liveThreads_append] at h1
    have h1' : PK.liveThreads l₁ + (1 + PK.liveThreads l₂) ≤ 1 := h1
    constructor
    · intro _
      show PK.liveThreads (l₁ ++ PK.ThreadPhase.done :: l₂) = 0
      rw [PK.liveThreads_append]
      show PK.liveThreads l₁ + (0 + PK.liveThreads l₂) = 0
      omega
    · show PK.liveThreads (l₁ ++ PK.ThreadPhase.done :: l₂) ≤ 1
      rw [PK.liveThreads_append]
      show PK.liveThreads l₁ + (0 + PK.liveThreads l₂) ≤ 1
      omega

/-- Every reachable state of `penalty_kick.py` satisfies the single-flight
invariant. -/
theorem PK.reach_flagInv {s : PK.Sys} (h : PK.Reach s) : PK.FlagInv s := by
  induction h with
  | base => exact ⟨fun _ => rfl, by decide⟩
  | step hr hstep ih => exact PK.step_flagInv hstep ih

/-- C2: at most one action-hold is in flight at a time.  In
`penalty_kick.py`, from every reachable state with an in-flight timeline a
trigger pulse is a complete no-op (no second timeline, no commands); in
`pose_penalty_kick.py`, while `is_kicking` is set the spawn site refuses to
start a new thread, and a thread entering `execute_penalty_kick` dies at
its `if self.is_kicking: return` guard without issuing any press/release
pair. -/
theorem C2_single_flight :
    (∀ s : PK.Sys, PK.Reach s → 0 < PK.liveCount s →
      ∀ t : ℚ, PK.trigger_penalty_kick s t = s) ∧
    (∀ (s : Pose.Sys) (t : ℚ), s.is_kicking = true →
      Pose.runTrigger s t = s) ∧
    (∀ (s : Pose.Sys) (l₁ l₂ : List Pose.ThreadPhase), s.is_kicking = true →
      Pose.entryStep s l₁ l₂ =
        { s with threads := l₁ ++ Pose.ThreadPhase.done :: l₂ }) := by
  refine ⟨?_, ?_, ?_⟩
  · intro s hreach hlive t
    have hinv := PK.reach_flagInv hreach
    cases ha : s.action_active with
    | false =>
      have h0 := hinv.1 ha
      omega
    | true =>
      rw [PK.trigger_penalty_kick, if_pos ha]
  · intro s t hk
    rw [Pose.runTrigger, if_neg]
    rintro ⟨-, h2⟩
    rw [hk] at h2
    exact Bool.noConfusion h2
  · intro s l₁ l₂ hk
    rw [Pose.entryStep, if_pos hk]

/-- Witness for C2 at concrete states: a reachable `penalty_kick.py` state
holding one live timeline ignores a trigger pulse, and the two
`pose_penalty_kick.py` guards at concrete kicking states. -/
theorem C2_single_flight_witness :
    PK.trigger_penalty_kick ⟨true, 0, [PK.ThreadPhase.started], []⟩ 10 =
      ⟨true, 0, [PK.ThreadPhase.started], []⟩ ∧
    Pose.runTrigger ⟨true, 0, [], []⟩ 10 = ⟨true, 0, [], []⟩ ∧
    Pose.entryStep ⟨true, 0, [Pose.ThreadPhase.entry], []⟩ [] [] =
      ⟨true, 0, [Pose.ThreadPhase.done], []⟩ := by
  refine ⟨?_, C2_single_flight.2.1 ⟨true, 0, [], []⟩ 10 rfl, ?_⟩
  · have h1 : PK.trigger_penalty_kick PK.initSys 5 =
        ⟨true, 0, [PK.ThreadPhase.started], []⟩ := by
      rw [PK.trigger_penalty_kick]
      norm_num [PK.initSys, PK.action_cooldown]
    have hreach : PK.Reach ⟨true, 0, [PK.ThreadPhase.started], []⟩ := by
      rw [← h1]
      exact PK.Reach.step PK.Reach.base (PK.Step.trigger PK.initSys 5)
    exact C2_single_flight.1 _ hreach (by decide) 10
  · exact C2_single_flight.2.2 ⟨true, 0, [Pose.ThreadPhase.entry], []⟩ [] [] rfl

/-- C7: a trigger pulse in the Idle state during the cooldown window is a
complete no-op in both variants: no command is issued, no timeline is
spawned, and both shared fields are unchanged. -/
theorem C7_cooldown_gate_noop :
    (∀ (s : PK.Sys) (t : ℚ), s.action_active = false →
      t - s.last_action_time < PK.action_cooldown →
      PK.trigger_penalty_kick s t = s) ∧
    (∀ (s : Pose.Sys) (t : ℚ), s.is_kicking = false →
      t - s.last_kick_time < Pose.cooldown_duration →
      Pose.runTrigger s t = s) := by
  constructor
  · intro s t ha hc
    rw [PK.trigger_penalty_kick, if_neg (by simp [ha]), if_pos hc]
  · intro s t hk hc
    have hng : ¬ (Pose.cooldown_duration ≤ t - s.last_kick_time ∧
        s.is_kicking = false) := by
      rintro ⟨h1, -⟩
      exact absurd h1 (not_le.mpr hc)
    rw [Pose.runTrigger, if_neg hng]

/-- Witness for C7 at `t = 1` from the two initial states (cooldowns 3 and
5 have not elapsed). -/
theorem C7_cooldown_gate_noop_witness :
    PK.trigger_penalty_kick PK.initSys 1 = PK.initSys ∧
    Pose.runTrigger ⟨false, 0, [], []⟩ 1 = ⟨false, 0, [], []⟩ :=
  ⟨C7_cooldown_gate_noop.1 PK.initSys 1 rfl
     (by norm_num [PK.initSys, PK.action_cooldown]),
   C7_cooldown_gate_noop.2 ⟨false, 0, [], []⟩ 1 rfl
     (by norm_num [Pose.cooldown_duration])⟩

/-- Running any try-body under any fault pattern and then the two-statement
finally-block of the execute functions always clears the flag and stamps
the last-completion time with the clock at that moment. -/
theorem Exec.runTryFinally_resets (fault : Nat → Bool) (σ : Exec.St)
    (body : List Exec.Act) :
    (Exec.runTryFinally fault σ body
        [Exec.Act.setActive false, Exec.Act.setLastNow]).active = false ∧
    (Exec.runTryFinally fault σ body
        [Exec.Act.setActive false, Exec.Act.setLastNow]).last =
      (Exec.runTryFinally fault σ body
        [Exec.Act.setActive false, Exec.Act.setLastNow]).time := by
  rw [Exec.runTryFinally]
  simp [Exec.runActs]

/-- C5: every execution of the timed effect body — including executions in
which any sink call raises — ends with the action flag reset to Idle and
the last-completion time stamped with the moment the body finished, so the
program is never left permanently Active. -/
theorem C5_finally_always_resets :
    (∀ (fault : Nat → Bool) (σ : Exec.St),
      (PK.execute_penalty_kick fault σ).active = false ∧
      (PK.execute_penalty_kick fault σ).last =
        (PK.execute_penalty_kick fault σ).time) ∧
    (∀ (fault : Nat → Bool) (σ : Exec.St), σ.active = false →
      (Pose.execute_penalty_kick fault σ).active = false ∧
      (Pose.execute_penalty_kick fault σ).last =
        (Pose.execute_penalty_kick fault σ).time) := by
  constructor
  · intro fault σ
    exact Exec.runTryFinally_resets fault σ PK.executeBody
  · intro fault σ hσ
    rw [Pose.execute_penalty_kick, if_neg (by simp [hσ])]
    exact Exec.runTryFinally_resets fault { σ with active := true }
      Pose.executeBody

/-- Witness for C5 at a fault-free sink and the all-zero initial state. -/
theorem C5_finally_always_resets_witness :
    ((PK.execute_penalty_kick Exec.noFault ⟨false, 0, 0, []⟩).active = false ∧
     (PK.execute_penalty_kick Exec.noFault ⟨false, 0, 0, []⟩).last =
       (PK.execute_penalty_kick Exec.noFault ⟨false, 0, 0, []⟩).time) ∧
    ((Pose.execute_penalty_kick Exec.noFault ⟨false, 0, 0, []⟩).active = false ∧
     (Pose.execute_penalty_kick Exec.noFault ⟨false, 0, 0, []⟩).last =
       (Pose.execute_penalty_kick Exec.noFault ⟨false, 0, 0, []⟩).time) :=
  ⟨C5_finally_always_resets.1 Exec.noFault ⟨false, 0, 0, []⟩,
   C5_finally_always_resets.2 Exec.noFault ⟨false, 0, 0, []⟩ rfl⟩

/-- C6: in a fault-free execution the last-completion time recorded by the
finally-block is the start time plus the full hold duration — the moment
the hold ends, after the press commands, the wait, and the release — and
not the trigger moment (the hold duration is nonzero); the log shows the
full press-then-release sequence. -/
theorem C6_completion_time_not_trigger_time :
    (∀ σ : Exec.St,
      (PK.execute_penalty_kick Exec.noFault σ).last =
        σ.time + PK.action_duration ∧
      (PK.execute_penalty_kick Exec.noFault σ).log =
        σ.log ++ (PK.pressCmds ++ PK.releaseCmds) ∧
      σ.time + PK.action_duration ≠ σ.time) ∧
    (∀ σ : Exec.St, σ.active = false →
      (Pose.execute_penalty_kick Exec.noFault σ).last =
        σ.time + Pose.kick_duration ∧
      (Pose.execute_penalty_kick Exec.noFault σ).log =
        σ.log ++ (Pose.pressCmds ++ Pose.releaseCmds) ∧
      σ.time + Pose.kick_duration ≠ σ.time) := by
  constructor
  · intro σ
    refine ⟨?_, ?_, ?_⟩
    · simp [PK.execute_penalty_kick, Exec.runTryFinally, Exec.runActs,
        PK.executeBody, PK.executeFinally, PK.pressCmds, PK.releaseCmds,
        Exec.noFault]
    · simp [PK.execute_penalty_kick, Exec.runTryFinally, Exec.runActs,
        PK.executeBody, PK.executeFinally, PK.pressCmds, PK.releaseCmds,
        Exec.noFault]
    · intro hcontra
      rw [PK.action_duration] at hcontra
      have : (2 : ℚ) = 0 := by linarith
      norm_num at this
  · intro σ hσ
    rw [Pose.execute_penalty_kick, if_neg (by simp [hσ])]
    refine ⟨?_, ?_, ?_⟩
    · simp [Exec.runTryFinally, Exec.runActs, Pose.executeBody,
        Pose.executeFinally, Pose.pressCmds, Pose.releaseCmds, Exec.noFault]
    · simp [Exec.runTryFinally, Exec.runActs, Pose.executeBody,
        Pose.executeFinally, Pose.pressCmds, Pose.releaseCmds, Exec.noFault]
    · intro hcontra
      rw [Pose.kick_duration] at hcontra
      have : (2 : ℚ) = 0 := by linarith
      norm_num at this

/-- Witness for C6 at the all-zero initial state under a fault-free
sink. -/
theorem C6_completion_time_not_trigger_time_witness :
    ((PK.execute_penalty_kick Exec.noFault ⟨false, 0, 0, []⟩).last =
        (⟨false, 0, 0, []⟩ : Exec.St).time + PK.action_duration ∧
     (PK.execute_penalty_kick Exec.noFault ⟨false, 0, 0, []⟩).log =
        (⟨false, 0, 0, []⟩ : Exec.St).log ++ (PK.pressCmds ++ PK.releaseCmds) ∧
     (⟨false, 0, 0, []⟩ : Exec.St).time + PK.action_duration ≠
        (⟨false, 0, 0, []⟩ : Exec.St).time) ∧
    ((Pose.execute_penalty_kick Exec.noFault ⟨false, 0, 0, []⟩).last =
        (⟨false, 0, 0, []⟩ : Exec.St).time + Pose.kick_duration ∧
     (Pose.execute_penalty_kick Exec.noFault ⟨false, 0, 0, []⟩).log =
        (⟨false, 0, 0, []⟩ : Exec.St).log ++ (Pose.pressCmds ++ Pose.releaseCmds) ∧
     (⟨false, 0, 0, []⟩ : Exec.St).time + Pose.kick_duration ≠
        (⟨false, 0, 0, []⟩ : Exec.St).time) :=
  ⟨C6_completion_time_not_trigger_time.1 ⟨false, 0, 0, []⟩,
   C6_completion_time_not_trigger_time.2 ⟨false, 0, 0, []⟩ rfl⟩

/-- C4, counterexample: the final cleanup of `pose_penalty_kick.py` — the
`finally:` block of `run` — contains no controller command at all: neither
a stick reset nor a button release is issued on capture-loop exit,
refuting the claim for that variant. -/
theorem C4_counterexample_pose_cleanup_releases_nothing :
    Pose.runFinallyCmds.all (fun c => !(isControllerCmd c)) = true := by
  decide

/-- C4, amended: in `penalty_kick.py`, `cleanup` always issues the analog
stick reset to (0,0), the B-button release, and a flush, whatever the
thread and camera state; in `pose_penalty_kick.py`, the final cleanup only
releases the camera and destroys the display windows, issuing no
controller release commands. -/
theorem C4_cleanup_release_amended :
    (∀ thread_alive cap_opened : Bool,
      SinkCmd.leftJoystick 0 0 ∈ PK.cleanup thread_alive cap_opened ∧
      SinkCmd.releaseB ∈ PK.cleanup thread_alive cap_opened ∧
      SinkCmd.gamepadUpdate ∈ PK.cleanup thread_alive cap_opened) ∧
    Pose.runFinallyCmds = [SinkCmd.capRelease, SinkCmd.destroyWindows] := by
  constructor
  · intro thread_alive cap_opened
    cases thread_alive <;> cases cap_opened <;> simp [PK.cleanup]
  · rfl
